import Mathlib

/-!
Verification development for the Pima County multi-page document scraper
(`pima_scraper_all_pages.py`).  The Python source is shallowly embedded:
pure string manipulation becomes executable Lean functions over `List Char`,
BeautifulSoup elements become structures holding the attributes and texts the
scraper reads, HTTP traffic becomes oracle functions from page/attempt
numbers to responses, and the stateful page loop becomes explicit state
passing.  Fallible operations return `Option`/`Except`, and a Python
exception that escapes a function is a dedicated constructor of its result
type.
-/

namespace PimaScraper

/-! ### String helpers

Executable models of the Python string operations used by the scraper
(`in`, `split`, `strip`, `lower`, `startswith`, `replace`, `join`).  They
are written by structural recursion over `List Char` so that concrete
instances reduce inside the kernel. -/

/-- Is `pat` a prefix of `cs`?  Model of Python `str.startswith` on
character lists. -/
def isPrefixList : List Char → List Char → Bool
  | [], _ => true
  | _ :: _, [] => false
  | a :: ps, b :: cs => a == b && isPrefixList ps cs

/-- Does `needle` occur as a contiguous substring of `hay`?  Model of the
Python `in` operator on strings. -/
def hasSub (needle : List Char) : List Char → Bool
  | [] => isPrefixList needle []
  | c :: t => isPrefixList needle (c :: t) || hasSub needle t

/-- Model of the Python expression `needle in hay` for strings. -/
def strContains (hay needle : String) : Bool :=
  hasSub needle.data hay.data

/-- Model of Python `hay.startswith(pat)`. -/
def strStartsWith (hay pat : String) : Bool :=
  isPrefixList pat.data hay.data

/-- Split on a single separator character, auxiliary accumulator form.
Like Python `str.split(sep)` this always yields at least one piece. -/
def splitOnCharAux (sep : Char) : List Char → List Char → List (List Char)
  | [], acc => [acc.reverse]
  | c :: t, acc =>
    if c == sep then acc.reverse :: splitOnCharAux sep t []
    else splitOnCharAux sep t (c :: acc)

/-- Model of Python `s.split(sep)` for a one-character separator (the
scraper only splits on the bullet glyph). -/
def pySplitChar (s : String) (sep : Char) : List String :=
  (splitOnCharAux sep s.data []).map String.mk

/-- Drop leading whitespace characters. -/
def dropLeadingWs : List Char → List Char
  | [] => []
  | c :: t => if c.isWhitespace then dropLeadingWs t else c :: t

/-- Model of Python `s.strip()`: remove whitespace from both ends. -/
def pyStrip (s : String) : String :=
  String.mk ((dropLeadingWs ((dropLeadingWs s.data).reverse)).reverse)

/-- Model of Python `s.lower()` (ASCII case folding). -/
def pyLower (s : String) : String :=
  String.mk (s.data.map Char.toLower)

/-- Fueled worker for `pyReplace`.  When the (non-empty) pattern matches at
the head it is consumed and replaced, as in Python `str.replace`, which
substitutes every non-overlapping occurrence left to right. -/
def replaceAux (pat rep : List Char) : Nat → List Char → List Char
  | 0, cs => cs
  | _ + 1, [] => []
  | f + 1, c :: t =>
    if pat ≠ [] ∧ isPrefixList pat (c :: t) = true then
      rep ++ replaceAux pat rep f (List.drop pat.length (c :: t))
    else c :: replaceAux pat rep f t

/-- Model of Python `s.replace(pat, rep)` for non-empty `pat` (all the
scraper's patterns are non-empty). -/
def pyReplace (s pat rep : String) : String :=
  String.mk (replaceAux pat.data rep.data s.data.length s.data)

/-- Model of Python `sep.join(xs)`. -/
def pyJoin (sep : String) : List String → String
  | [] => ""
  | [x] => x
  | x :: y :: xs => x ++ sep ++ pyJoin sep (y :: xs)

/-! ### Date regex

Model of the `re.search` call in `parse_document_from_row` (line 363)
whose pattern is a one-or-two digit group, a slash, a one-or-two digit
group, a slash, and a four digit group: leftmost match, with the greedy
one-or-two-digit groups tried widest first and backtracked on failure. -/

/-- Match exactly four digits at the head, returning them. -/
def matchYear4 : List Char → Option (List Char)
  | a :: b :: c :: d :: _ =>
    if a.isDigit && b.isDigit && c.isDigit && d.isDigit then some [a, b, c, d]
    else none
  | _ => none

/-- Match two digits at the head. -/
def matchTwoDigits : List Char → Option (List Char × List Char)
  | a :: b :: rest => if a.isDigit && b.isDigit then some ([a, b], rest) else none
  | _ => none

/-- Match one digit at the head. -/
def matchOneDigit : List Char → Option (List Char × List Char)
  | a :: rest => if a.isDigit then some ([a], rest) else none
  | _ => none

/-- Match a slash followed by the four-digit year. -/
def matchSlashYear : List Char → Option (List Char)
  | '/' :: rest => (matchYear4 rest).map (fun y => '/' :: y)
  | _ => none

/-- Match the second day-or-month group then the year part, greedy with
backtracking on the one-or-two digit group. -/
def matchSecondFrom (cs : List Char) : Option (List Char) :=
  match matchTwoDigits cs with
  | some (m, rest) =>
    match matchSlashYear rest with
    | some t => some (m ++ t)
    | none =>
      match matchOneDigit cs with
      | some (m1, rest1) => (matchSlashYear rest1).map (fun t => m1 ++ t)
      | none => none
  | none =>
    match matchOneDigit cs with
    | some (m1, rest1) => (matchSlashYear rest1).map (fun t => m1 ++ t)
    | none => none

/-- Match a slash then the second group and year. -/
def matchSlashSecond : List Char → Option (List Char)
  | '/' :: rest => (matchSecondFrom rest).map (fun m => '/' :: m)
  | _ => none

/-- Try to match the whole date pattern at the current position. -/
def matchDateAt (cs : List Char) : Option (List Char) :=
  match matchTwoDigits cs with
  | some (m, rest) =>
    match matchSlashSecond rest with
    | some t => some (m ++ t)
    | none =>
      match matchOneDigit cs with
      | some (m1, rest1) => (matchSlashSecond rest1).map (fun t => m1 ++ t)
      | none => none
  | none =>
    match matchOneDigit cs with
    | some (m1, rest1) => (matchSlashSecond rest1).map (fun t => m1 ++ t)
    | none => none

/-- Leftmost match: scan positions left to right. -/
def dateSearchAux : List Char → Option (List Char)
  | [] => none
  | c :: t =>
    match matchDateAt (c :: t) with
    | some m => some m
    | none => dateSearchAux t

/-- Model of the date-extraction regex search on a string; returns the
matched `MM/DD/YYYY`-shaped token when present. -/
def dateSearch (s : String) : Option String :=
  (dateSearchAux s.data).map String.mk

/-! ### Data model

`DocumentRecord` mirrors the `@dataclass DocumentRecord` of the source
(lines 68-85); every field defaults to the empty string and the extension
bag `additional_info` defaults to the empty mapping (modelled as an
insertion-ordered association list, matching a Python dict of strings). -/

/-- The fixed backend host (config constant `BASE`, line 36). -/
def BASE : String := "https://pimacountyaz-web.tylerhost.net"

/-- Model of `urllib.parse.urljoin(BASE, url)` for the uses in the scraper:
an already-absolute URL stands alone, otherwise the path is grafted onto
the host (the configured `BASE` has no trailing path). -/
def urljoin (base url : String) : String :=
  if strContains url "://" then url
  else if url = "" then base
  else base ++ url

/-- Structure for a single document record (source lines 68-85). -/
structure DocumentRecord where
  document_id : String := ""
  book_volume_page : String := ""
  document_type : String := ""
  document_type_description : String := ""
  recording_date : String := ""
  grantor : String := ""
  grantee : String := ""
  consideration : String := ""
  legal_description : String := ""
  document_url : String := ""
  additional_info : List (String × String) := []
  deriving Repr, DecidableEq

/-- An anchor element with an `href`, as used by the action-link scan
(source lines 410-420): its `href`, `title` and `data-function`
attributes (absent attributes are the empty string, Python `.get(x, '')`). -/
structure LinkSoup where
  href : String := ""
  title : String := ""
  dataFunction : String := ""
  deriving Repr, DecidableEq

/-- A result row as BeautifulSoup presents it to `parse_document_from_row`:
its attribute mapping, the stripped text of its first `h1` (if any), the
stripped `li` texts of each `searchResultThreeColumn` div (first entry is
the column header), its anchor elements, and the optional status avatar
(classes and stripped text). -/
structure RowSoup where
  attrs : List (String × String) := []
  h1Text : Option String := none
  columns : List (List String) := []
  links : List LinkSoup := []
  avatar : Option (List String × String) := none
  deriving Repr, DecidableEq

/-- A page of markup as BeautifulSoup presents it to `parse_page`: the rows
of the `ul.selfServiceSearchResultList` container when that container
exists, and the `li.ss-search-row` elements found anywhere in the document
(the fallback scan of source line 466). -/
structure PageSoup where
  mainContainer : Option (List RowSoup) := none
  looseRows : List RowSoup := []
  deriving Repr, DecidableEq

/-- Model of `row_soup.get(key, '')`: attribute lookup with default. -/
def rowAttr (row : RowSoup) (key : String) : String :=
  (row.attrs.lookup key).getD ""

/-- Python dict assignment `d[k] = v`: overwrite an existing key in place,
otherwise append in insertion order. -/
def dictSet (d : List (String × String)) (k v : String) : List (String × String) :=
  if d.any (fun p => p.1 == k) then
    d.map (fun p => if p.1 == k then (k, v) else p)
  else d ++ [(k, v)]

/-! ### Row parsing (`parse_document_from_row`, source lines 311-439) -/

/-- Coded document type derived from the description by substring match
(source lines 335-338).  The source leaves the dataclass default (the
empty string) untouched when neither fragment occurs, so there is no other
assignment to model. -/
def docTypeFrom (desc : String) : String :=
  if strContains desc "NOTICE SALE" then "NTSALE"
  else if strContains desc "CANCELLATION" then "CNLNT"
  else ""

/-- The document id: `data-documentid` attribute, falling back to the `id`
attribute with the `searchRow` prefix removed (source lines 317-322). -/
def documentIdOf (row : RowSoup) : String :=
  let primary := rowAttr row "data-documentid"
  if primary = "" then
    let rowId := rowAttr row "id"
    if strStartsWith rowId "searchRow" then pyReplace rowId "searchRow" ""
    else ""
  else primary

/-- Fields recovered from the `h1` heading: `(book_volume_page,
document_type_description, document_type)` (source lines 324-338).  The
heading text splits on the bullet glyph; the first part always populates
`book_volume_page`, the second (when present) the description and the
derived type code. -/
def h1Fields : Option String → String × String × String
  | none => ("", "", "")
  | some t =>
    let parts := pySplitChar t '•'
    let bvp := pyStrip (parts.headD "")
    if 2 ≤ parts.length then
      let d := pyStrip (parts.getD 1 "")
      (bvp, d, docTypeFrom d)
    else (bvp, "", "")

/-- Apply one `searchResultThreeColumn` column to the record under
construction (source lines 348-398): the lower-cased header (first `li`)
selects the field; a column with no `li` is skipped. -/
def applyColumn (doc : DocumentRecord) (col : List String) : DocumentRecord :=
  match col with
  | [] => doc
  | headerText :: values =>
    let header := pyLower headerText
    if strContains header "recording date" then
      match values.findSome? dateSearch with
      | some d => { doc with recording_date := d }
      | none => doc
    else if strContains header "grantor" then
      let gs := values.filter (fun v => v ≠ "")
      if gs = [] then doc else { doc with grantor := pyJoin " | " gs }
    else if strContains header "grantee" then
      let gs := values.filter (fun v => v ≠ "")
      if gs = [] then doc else { doc with grantee := pyJoin " | " gs }
    else if strContains header "consideration" then
      match values.find? (fun v => v ≠ "") with
      | some v => { doc with consideration := v }
      | none => doc
    else if strContains header "legal" || strContains header "description" then
      match values.find? (fun v => v ≠ "") with
      | some v => { doc with legal_description := v }
      | none => doc
    else doc

/-- The extension bag (source lines 400-428): every non-empty `data-*`
attribute with its name normalized, the recognized action links, and the
status avatar. -/
def additionalInfoOf (row : RowSoup) : List (String × String) :=
  let ai0 := row.attrs.foldl
    (fun d p =>
      if strStartsWith p.1 "data-" = true ∧ p.2 ≠ "" then
        dictSet d (pyReplace (pyReplace p.1 "data-" "") "-" "_") p.2
      else d) []
  let ai1 := row.links.foldl
    (fun d l =>
      if l.title = "" then d
      else if strContains (pyLower l.title) "view" then
        dictSet d "view_url" (urljoin BASE l.href)
      else if strContains (pyLower l.title) "print" then
        dictSet d "print_function" l.dataFunction
      else if strContains (pyLower l.title) "cart" then
        dictSet d "cart_function" l.dataFunction
      else d) ai0
  match row.avatar with
  | none => ai1
  | some (classes, text) =>
    dictSet (dictSet ai1 "status_indicator" text) "status_class"
      (pyJoin " " classes)

/-- The record built from a row before the emission guard (the body of
`parse_document_from_row` up to line 430). -/
def buildDoc (row : RowSoup) : DocumentRecord :=
  let hf := h1Fields row.h1Text
  let href := rowAttr row "data-href"
  let base : DocumentRecord :=
    { document_id := documentIdOf row
      book_volume_page := hf.1
      document_type_description := hf.2.1
      document_type := hf.2.2
      document_url := if href = "" then "" else urljoin BASE href }
  let withCols := row.columns.foldl applyColumn base
  { withCols with additional_info := additionalInfoOf row }

/-- The emission guard of source line 433: at least one of the six
identifying fields is non-empty. -/
def hasMeaningfulData (doc : DocumentRecord) : Prop :=
  doc.document_id ≠ "" ∨ doc.recording_date ≠ "" ∨ doc.grantor ≠ "" ∨
    doc.grantee ≠ "" ∨ doc.document_type_description ≠ "" ∨
    doc.book_volume_page ≠ ""

instance (doc : DocumentRecord) : Decidable (hasMeaningfulData doc) := by
  unfold hasMeaningfulData; infer_instance

/-- Parse a single document row into a `DocumentRecord` (source lines
311-439): the built record is returned only when the emission guard
holds, otherwise the row yields nothing.  In the source a parse exception
also lands in the `return None` path; the embedding is total, so the
guard is the only source of `none`. -/
def parse_document_from_row (row : RowSoup) : Option DocumentRecord :=
  if hasMeaningfulData (buildDoc row) then some (buildDoc row) else none

/-- Rows a page contributes: the main container's rows when the container
exists, otherwise the page-wide fallback scan (source lines 448-466). -/
def pageRowsOf (p : PageSoup) : List RowSoup :=
  match p.mainContainer with
  | some rows => rows
  | none => p.looseRows

/-- Parse all documents from a page (source lines 441-503).  Every row that
parses is appended in row order; rows that fail the guard are skipped; a
page with neither the container nor any fallback row yields the empty list
(the source additionally writes a debug snapshot there, a file-system side
effect not modelled).  The page number is only used for logging. -/
def parse_page (p : PageSoup) (pageNum : Nat) : List DocumentRecord :=
  let _ := pageNum
  match p.mainContainer with
  | some rows => rows.filterMap parse_document_from_row
  | none =>
    match p.looseRows with
    | [] => []
    | r :: rest => (r :: rest).filterMap parse_document_from_row

/-! ### Page fetch with retry (`fetch_page`, source lines 277-309)

One HTTP attempt either raises a `requests.RequestException` (network
error or timeout) or yields a status code and, when the page is served, a
body; the body carries the markup already soupified into a `PageSoup`.
The loop runs `MAX_RETRIES` iterations; a 5xx status or a network error on
the last iteration returns `None`, while any non-5xx, non-ok status (in
particular a 4xx) hits `ensure_ok` (source line 127) which raises a
`RuntimeError` that propagates out of the loop, because the `except`
clause only catches `requests.RequestException`. -/

/-- Config constant `MAX_RETRIES` (source line 52). -/
def MAX_RETRIES : Nat := 3

/-- Result of one HTTP attempt when fetching a page. -/
inductive AttemptResult where
  | status (code : Nat) (body : PageSoup)
  | netError
  deriving Repr, DecidableEq

/-- Outcome of `fetch_page`: the successful markup, the `return None`
paths, or an escaping `RuntimeError` carrying the offending status. -/
inductive FetchOutcome where
  | ok (body : PageSoup)
  | failed
  | raised (code : Nat)
  deriving Repr, DecidableEq

/-- Add one performed HTTP request to an outcome-and-count pair. -/
def bump (x : FetchOutcome × Nat) : FetchOutcome × Nat :=
  (x.1, x.2 + 1)

/-- The retry loop from `attempt` with `r` loop iterations remaining,
also counting the HTTP requests performed.  `r = 0` is the fall-through
after the loop (`return None`, source line 309), unreachable from the
top-level entry. -/
def fetchAux (resp : Nat → AttemptResult) : Nat → Nat → FetchOutcome × Nat
  | _, 0 => (.failed, 0)
  | attempt, r + 1 =>
    match resp attempt with
    | .netError =>
      if r = 0 then (.failed, 1)
      else bump (fetchAux resp (attempt + 1) r)
    | .status code body =>
      if 500 ≤ code then
        if r = 0 then (.failed, 1)
        else bump (fetchAux resp (attempt + 1) r)
      else if 400 ≤ code then (.raised code, 1)
      else (.ok body, 1)

/-- Fetch a results page given the oracle `resp` mapping each attempt
number to that attempt's result; returns the outcome together with the
number of HTTP requests performed (source lines 277-309). -/
def fetch_page (resp : Nat → AttemptResult) : FetchOutcome × Nat :=
  fetchAux resp 1 MAX_RETRIES

/-! ### Search submission (`submit_search`, source lines 249-275)

Only the response processing is modelled: `ensure_ok` first, then the
JSON body.  A parseable JSON object is an association list of integer
fields (`.get("totalPages", 1)`); anything unparseable raises
`json.JSONDecodeError`, which the source catches and turns into one
page. -/

/-- The JSON body of the search response, as far as the scraper reads it. -/
inductive JsonBody where
  | obj (fields : List (String × Int))
  | invalid
  deriving Repr, DecidableEq

/-- Total-page count determined by `submit_search` from the search POST's
status and body (source lines 264-273): a non-ok status raises
(`Except.error` carries it), an unparseable body defaults to one page, and
otherwise the server's `totalPages` value is used as is, defaulting to one
page when the field is absent. -/
def submit_search_pages (st : Nat) (body : JsonBody) : Except Nat Int :=
  if 400 ≤ st then .error st
  else
    match body with
    | .invalid => .ok 1
    | .obj fields => .ok ((fields.lookup "totalPages").getD 1)

/-! ### Session ping and the page loop (`ping_session` and
`scrape_all_pages`, source lines 505-575) -/

/-- The outside world for one scrape run: each page's per-attempt HTTP
results and each page's keep-alive ping status (`none` models a request
exception, which `ping_session` swallows). -/
structure Env where
  pageResp : Nat → Nat → AttemptResult
  pingStatus : Nat → Option Nat

/-- Keep-alive ping (source lines 505-520): `false` on a 401 or 403
status or on any request exception, `true` otherwise. -/
def ping_session (env : Env) (page : Nat) : Bool :=
  match env.pingStatus page with
  | none => false
  | some st => if st = 401 ∨ st = 403 then false else true

/-- Mutable run state accumulated by `scrape_all_pages`: the documents,
the success counter, the failed page numbers, the trace of keep-alive
pings (page number and the ping's boolean result) and the final
`total_records` field. -/
structure ScrapeState where
  documents : List DocumentRecord := []
  successfulPages : Nat := 0
  failedPages : List Nat := []
  pings : List (Nat × Bool) := []
  totalRecords : Nat := 0
  deriving Repr, DecidableEq

/-- The state before the loop (source lines 105-112 and 527-528). -/
def initScrapeState : ScrapeState := {}

/-- How `scrape_all_pages` ends: normally with its final state, or by an
exception escaping from `fetch_page` at some page (carrying that page and
the offending HTTP status) with the state accumulated so far. -/
inductive ScrapeResult where
  | done (s : ScrapeState)
  | error (page : Nat) (code : Nat) (s : ScrapeState)
  deriving Repr, DecidableEq

/-- The periodic keep-alive of source lines 534-535: on every page number
divisible by five, `ping_session` is called before the page is fetched and
its boolean result is discarded (only the trace records it); on other
pages nothing happens. -/
def pingStep (env : Env) (page : Nat) (s : ScrapeState) : ScrapeState :=
  if page % 5 = 0 then { s with pings := s.pings ++ [(page, ping_session env page)] }
  else s

/-- The page loop of `scrape_all_pages` (source lines 530-552) over the
remaining page numbers: ping every fifth page, fetch, on `None` record the
page as failed and continue, on markup parse and append the page's
documents and count the success, and on an escaping exception stop with an
error.  After the loop `total_records` is set to the number of accumulated
documents (source line 558). -/
def scrapeGo (env : Env) : List Nat → ScrapeState → ScrapeResult
  | [], s => .done { s with totalRecords := s.documents.length }
  | p :: rest, s =>
    let s1 := pingStep env p s
    match (fetch_page (env.pageResp p)).1 with
    | .ok body =>
      scrapeGo env rest
        { s1 with
          documents := s1.documents ++ parse_page body p
          successfulPages := s1.successfulPages + 1 }
    | .failed => scrapeGo env rest { s1 with failedPages := s1.failedPages ++ [p] }
    | .raised code => .error p code s1

/-- Scrape all pages `1 .. totalPages` starting from the fresh state
(source lines 522-575). -/
def scrape_all_pages (env : Env) (totalPages : Nat) : ScrapeResult :=
  scrapeGo env (List.range' 1 totalPages) initScrapeState

/-! ### Top-level run (`run`, source lines 600-631)

`establish_session` either succeeds or raises; `submit_search` processes
the search POST; only a strictly positive `total_pages` reaches the page
loop and `save_results`.  The `except Exception` clause saves partial
results only when some documents were accumulated, then re-raises. -/

/-- The outside world for a whole run. -/
structure RunEnv where
  establishOk : Bool
  submitStatus : Nat
  submitBody : JsonBody
  pageResp : Nat → Nat → AttemptResult
  pingStatus : Nat → Option Nat

/-- The page-loop view of a run environment. -/
def RunEnv.toEnv (env : RunEnv) : Env :=
  { pageResp := env.pageResp, pingStatus := env.pingStatus }

/-- How `run` ends: the consolidated output file written after a completed
scrape; normal termination with no output artifact (the non-positive page
count branch, source lines 618-619); an exception re-raised after saving
the partial output; or an exception re-raised with nothing written. -/
inductive RunResult where
  | savedOutput (s : ScrapeState)
  | noOutput
  | abortedSaved (page : Nat) (code : Nat) (s : ScrapeState)
  | abortedNoSave
  deriving Repr, DecidableEq

/-- Main execution method (source lines 600-631). -/
def run (env : RunEnv) : RunResult :=
  if env.establishOk = false then .abortedNoSave
  else
    match submit_search_pages env.submitStatus env.submitBody with
    | .error _ => .abortedNoSave
    | .ok total =>
      if 0 < total then
        match scrape_all_pages env.toEnv total.toNat with
        | .done s => .savedOutput s
        | .error p c s =>
          if s.documents = [] then .abortedNoSave else .abortedSaved p c s
      else .noOutput

/-- Does a run outcome write the consolidated output artifact? -/
def writesFile : RunResult → Bool
  | .savedOutput _ => true
  | .abortedSaved _ _ _ => true
  | _ => false

/-- Does a run outcome terminate by re-raising an exception? -/
def raisesError : RunResult → Bool
  | .abortedSaved _ _ _ => true
  | .abortedNoSave => true
  | _ => false

/-! ### Helper lemmas -/

/-- A column never touches the document type or its description: those are
assigned only in the `h1` branch of the source. -/
theorem applyColumn_fields (doc : DocumentRecord) (col : List String) :
    (applyColumn doc col).document_type = doc.document_type ∧
    (applyColumn doc col).document_type_description
      = doc.document_type_description := by
  cases col with
  | nil => exact ⟨rfl, rfl⟩
  | cons headerText values =>
    simp only [applyColumn]
    repeat' split
    all_goals exact ⟨rfl, rfl⟩

/-- Folding all columns preserves the document type and description. -/
theorem foldl_applyColumn_fields (cols : List (List String))
    (doc : DocumentRecord) :
    (cols.foldl applyColumn doc).document_type = doc.document_type ∧
    (cols.foldl applyColumn doc).document_type_description
      = doc.document_type_description := by
  induction cols generalizing doc with
  | nil => exact ⟨rfl, rfl⟩
  | cons c cs ih =>
    simp only [List.foldl_cons]
    obtain ⟨h1, h2⟩ := applyColumn_fields doc c
    obtain ⟨g1, g2⟩ := ih (applyColumn doc c)
    exact ⟨g1.trans h1, g2.trans h2⟩

/-- The built record's type and description come from the `h1` fields. -/
theorem buildDoc_h1 (row : RowSoup) :
    (buildDoc row).document_type = (h1Fields row.h1Text).2.2 ∧
    (buildDoc row).document_type_description = (h1Fields row.h1Text).2.1 := by
  unfold buildDoc
  exact foldl_applyColumn_fields row.columns _

/-- The heading-derived type code is always the substring classification of
the heading-derived description. -/
theorem h1Fields_type (o : Option String) :
    (h1Fields o).2.2 = docTypeFrom (h1Fields o).2.1 := by
  cases o with
  | none => rfl
  | some t =>
    simp only [h1Fields]
    split
    · rfl
    · rfl

/-- A record emitted by `parse_document_from_row` is the built record and
satisfies the emission guard. -/
theorem parse_row_some (row : RowSoup) (doc : DocumentRecord)
    (h : parse_document_from_row row = some doc) :
    doc = buildDoc row ∧ hasMeaningfulData doc := by
  unfold parse_document_from_row at h
  split at h
  · cases h
    exact ⟨rfl, by assumption⟩
  · cases h

/-- Both branches of `parse_page` are the same row-order filter map. -/
theorem parse_page_eq_filterMap (p : PageSoup) (n : Nat) :
    parse_page p n = (pageRowsOf p).filterMap parse_document_from_row := by
  cases hm : p.mainContainer with
  | some rows => simp [parse_page, pageRowsOf, hm]
  | none =>
    cases hl : p.looseRows with
    | nil => simp [parse_page, pageRowsOf, hm, hl]
    | cons r rest => simp [parse_page, pageRowsOf, hm, hl]

/-! ### Claim C5 -/

/-- A row whose heading describes a document type the scraper does not
know: a deed of trust. -/
def cexRow5 : RowSoup :=
  { attrs := [("data-documentid", "DOC1")], h1Text := some "B1 • DEED OF TRUST" }

/-- Claim C5, counterexample: on a row whose description is neither a
notice of sale nor a cancellation, the scraper emits the record with the
dataclass default empty string as `document_type`, not the `UNKNOWN` code
the claim promises. -/
theorem C5_counterexample :
    (parse_document_from_row cexRow5).map DocumentRecord.document_type_description
      = some "DEED OF TRUST" ∧
    (parse_document_from_row cexRow5).map DocumentRecord.document_type
      ≠ some "UNKNOWN" ∧
    (parse_document_from_row cexRow5).map DocumentRecord.document_type
      = some "" := by
  refine ⟨rfl, ?_, rfl⟩
  decide

/-- Claim C5 (amended): for every emitted record the coded `document_type`
is derived from `document_type_description` by substring match — a
description containing "NOTICE SALE" yields NTSALE, one containing
"CANCELLATION" but not "NOTICE SALE" yields CNLNT, and every other
description yields the empty string (the record default), not UNKNOWN. -/
theorem C5_document_type (row : RowSoup) (doc : DocumentRecord)
    (h : parse_document_from_row row = some doc) :
    (strContains doc.document_type_description "NOTICE SALE" = true →
      doc.document_type = "NTSALE") ∧
    (strContains doc.document_type_description "NOTICE SALE" = false →
      strContains doc.document_type_description "CANCELLATION" = true →
      doc.document_type = "CNLNT") ∧
    (strContains doc.document_type_description "NOTICE SALE" = false →
      strContains doc.document_type_description "CANCELLATION" = false →
      doc.document_type = "") := by
  obtain ⟨hdoc, -⟩ := parse_row_some row doc h
  subst hdoc
  have hty : (buildDoc row).document_type
      = docTypeFrom (buildDoc row).document_type_description := by
    obtain ⟨h1, h2⟩ := buildDoc_h1 row
    rw [h1, h2, h1Fields_type]
  refine ⟨fun hn => ?_, fun hn hc => ?_, fun hn hc => ?_⟩ <;>
    simp [hty, docTypeFrom, hn]
  · simp [hc]
  · simp [hc]

/-- A row carrying a notice-of-sale description. -/
def witRow5 : RowSoup :=
  { h1Text := some "SEQ 1 • NOTICE SALE TRUSTEE" }

/-- Claim C5, witness: a concrete notice-of-sale row is classified NTSALE. -/
theorem C5_witness :
    ((parse_document_from_row witRow5).getD {}).document_type = "NTSALE" :=
  (C5_document_type witRow5 ((parse_document_from_row witRow5).getD {})
    (by decide)).1 (by decide)

/-! ### Claim C6 -/

/-- Claim C6: a record appears in the extractor's output for a page only if
at least one of the six identifying fields (document id, recording date,
grantor, grantee, type description, book/volume/page) is non-empty; a row
with all six empty is never emitted. -/
theorem C6_emission_guard (p : PageSoup) (n : Nat) (doc : DocumentRecord)
    (h : doc ∈ parse_page p n) : hasMeaningfulData doc := by
  rw [parse_page_eq_filterMap] at h
  obtain ⟨row, -, hrow⟩ := List.mem_filterMap.mp h
  exact (parse_row_some row doc hrow).2

/-- A row with only the document id set. -/
def witRow6 : RowSoup := { attrs := [("data-documentid", "D7")] }

/-- A page holding a single identifiable row. -/
def witPage6 : PageSoup := { mainContainer := some [witRow6] }

/-- Claim C6, witness: the concrete emitted record has meaningful data. -/
theorem C6_witness : hasMeaningfulData (buildDoc witRow6) :=
  C6_emission_guard witPage6 1 (buildDoc witRow6) (by decide)

/-! ### Claim C7 -/

/-- Claim C7: the extractor is a total function of the page markup — it
always returns the row-order filter map of the page's rows (so a row whose
parse yields nothing is merely skipped and the output never exceeds the
row count), and a page with no recognizable result structure (no result
container and no fallback rows) yields the empty sequence. -/
theorem C7_extractor_total (p : PageSoup) (n : Nat) :
    parse_page p n = (pageRowsOf p).filterMap parse_document_from_row ∧
    (parse_page p n).length ≤ (pageRowsOf p).length ∧
    (p.mainContainer = none → p.looseRows = [] → parse_page p n = []) := by
  refine ⟨parse_page_eq_filterMap p n, ?_, fun h1 h2 => ?_⟩
  · rw [parse_page_eq_filterMap]
    exact List.length_filterMap_le _ _
  · simp [parse_page, h1, h2]

/-- Claim C7, witness: a structurally empty page yields no records. -/
theorem C7_witness : parse_page { mainContainer := none, looseRows := [] } 3 = [] :=
  (C7_extractor_total { mainContainer := none, looseRows := [] } 3).2.2 rfl rfl

/-! ### Claim C4 -/

/-- Claim C4: against a server that answers N consecutive 5xx responses and
then succeeds, `fetch_page` performs exactly N+1 HTTP requests and returns
the successful markup when N+1 is at most `MAX_RETRIES`, and otherwise
returns failure (`None`) after exactly `MAX_RETRIES` requests. -/
theorem C4_retry_policy (N : Nat) (resp : Nat → AttemptResult) (c : Nat)
    (body : PageSoup)
    (h5 : ∀ i, 1 ≤ i → i ≤ N → ∃ ci bi, resp i = .status ci bi ∧ 500 ≤ ci)
    (hs : resp (N + 1) = .status c body) (hc : c < 400) :
    (N + 1 ≤ MAX_RETRIES → fetch_page resp = (.ok body, N + 1)) ∧
    (MAX_RETRIES < N + 1 → fetch_page resp = (.failed, MAX_RETRIES)) := by
  have hn4 : ¬ 400 ≤ c := by omega
  have hn5 : ¬ 500 ≤ c := by omega
  rcases N with _ | (_ | (_ | n))
  · refine ⟨fun _ => ?_, fun hlt => absurd hlt (by simp [MAX_RETRIES])⟩
    simp [fetch_page, MAX_RETRIES, fetchAux, hs, hn4, hn5]
  · obtain ⟨c1, b1, e1, g1⟩ := h5 1 (by omega) (by omega)
    refine ⟨fun _ => ?_, fun hlt => absurd hlt (by simp [MAX_RETRIES])⟩
    simp [fetch_page, MAX_RETRIES, fetchAux, e1, g1, hs, hn4, hn5, bump]
  · obtain ⟨c1, b1, e1, g1⟩ := h5 1 (by omega) (by omega)
    obtain ⟨c2, b2, e2, g2⟩ := h5 2 (by omega) (by omega)
    refine ⟨fun _ => ?_, fun hlt => absurd hlt (by simp [MAX_RETRIES])⟩
    simp [fetch_page, MAX_RETRIES, fetchAux, e1, g1, e2, g2, hs, hn4, hn5, bump]
  · obtain ⟨c1, b1, e1, g1⟩ := h5 1 (by omega) (by omega)
    obtain ⟨c2, b2, e2, g2⟩ := h5 2 (by omega) (by omega)
    obtain ⟨c3, b3, e3, g3⟩ := h5 3 (by omega) (by omega)
    refine ⟨fun hle => absurd hle (by simp only [MAX_RETRIES]; omega), fun _ => ?_⟩
    simp [fetch_page, MAX_RETRIES, fetchAux, e1, g1, e2, g2, e3, g3, bump]

/-- A page of markup with an empty result container. -/
def emptyPage : PageSoup := { mainContainer := some [] }

/-- A server that answers 503 once, then succeeds. -/
def witResp4 : Nat → AttemptResult := fun a =>
  if a = 1 then .status 503 emptyPage else .status 200 emptyPage

/-- Claim C4, witness: one 503 then a success gives exactly two requests
and the successful markup. -/
theorem C4_witness : fetch_page witResp4 = (.ok emptyPage, 2) :=
  (C4_retry_policy 1 witResp4 200 emptyPage
    (fun i h1 h2 => by
      have hi : i = 1 := by omega
      subst hi
      exact ⟨503, emptyPage, rfl, by omega⟩)
    rfl (by omega)).1 (by decide)

/-! ### Claim C1 -/

/-- A backend whose every page request answers 404. -/
def cexEnv1 : Env :=
  { pageResp := fun _ _ => .status 404 emptyPage, pingStatus := fun _ => some 200 }

/-- Claim C1, counterexample: with page 1 answering 404 in a two-page run,
`fetch_page` raises (one attempt, no retry) and the raised `RuntimeError`
escapes the page loop: the run stops at page 1 with nothing recorded in
`failedPages` and page 2 never processed, instead of recording a fatal
page failure and continuing. -/
theorem C1_counterexample :
    fetch_page (cexEnv1.pageResp 1) = (.raised 404, 1) ∧
    scrape_all_pages cexEnv1 2 = .error 1 404 initScrapeState ∧
    initScrapeState.failedPages = [] := ⟨rfl, rfl, rfl⟩

/-- Claim C1 (amended): a page fetch whose HTTP response status lies in
400-499 is not retried, but instead of being recorded as a page-local
failure it raises an error that escalates out of the page loop and
terminates the scrape run at that page: the loop result is an error
carrying the accumulated state (the page is never added to `failedPages`
and later pages are never fetched). -/
theorem C1_client_error_escalates (env : Env) (p : Nat) (rest : List Nat)
    (s : ScrapeState) (c : Nat) (body : PageSoup)
    (h : env.pageResp p 1 = .status c body) (h4 : 400 ≤ c) (h5 : c < 500) :
    fetch_page (env.pageResp p) = (.raised c, 1) ∧
    scrapeGo env (p :: rest) s = .error p c (pingStep env p s) := by
  have hn5 : ¬ 500 ≤ c := by omega
  have hf : fetch_page (env.pageResp p) = (.raised c, 1) := by
    simp [fetch_page, MAX_RETRIES, fetchAux, h, hn5, h4]
  exact ⟨hf, by simp [scrapeGo, hf]⟩

/-- Claim C1, witness: the amended statement at the concrete 404 backend. -/
theorem C1_witness :
    fetch_page (cexEnv1.pageResp 1) = (.raised 404, 1) ∧
    scrapeGo cexEnv1 [1, 2] initScrapeState
      = .error 1 404 (pingStep cexEnv1 1 initScrapeState) :=
  C1_client_error_escalates cexEnv1 1 [2] initScrapeState 404 emptyPage rfl
    (by omega) (by omega)

/-! ### Claim C3 -/

/-- Claim C3, counterexample: a success response whose JSON body carries a
negative `totalPages` flows through unchanged, so `submit_search` does
produce a negative total-page count. -/
theorem C3_counterexample :
    submit_search_pages 200 (.obj [("totalPages", -5)]) = .ok (-5) ∧
    (-5 : Int) < 0 := ⟨rfl, by decide⟩

/-- Claim C3 (amended): for every success-status response, an unparseable
body or a body lacking the `totalPages` field yields a total-page count of
exactly 1, and a present `totalPages` field is used as is — including
negative values, so no non-negativity guarantee holds. -/
theorem C3_total_pages (st : Nat) (fields : List (String × Int))
    (hok : st < 400) :
    submit_search_pages st .invalid = .ok 1 ∧
    (fields.lookup "totalPages" = none →
      submit_search_pages st (.obj fields) = .ok 1) ∧
    ∀ v, fields.lookup "totalPages" = some v →
      submit_search_pages st (.obj fields) = .ok v := by
  have h : ¬ 400 ≤ st := by omega
  refine ⟨by simp [submit_search_pages, h], fun hn => ?_, fun v hv => ?_⟩
  · simp [submit_search_pages, h, hn]
  · simp [submit_search_pages, h, hv]

/-- Claim C3, witness: the amended statement at a concrete response. -/
theorem C3_witness :
    submit_search_pages 200 .invalid = .ok 1 ∧
    (([("totalPages", (7 : Int))].lookup "totalPages" = none) →
      submit_search_pages 200 (.obj [("totalPages", 7)]) = .ok 1) ∧
    ∀ v, [("totalPages", (7 : Int))].lookup "totalPages" = some v →
      submit_search_pages 200 (.obj [("totalPages", 7)]) = .ok v :=
  C3_total_pages 200 [("totalPages", 7)] (by omega)

/-! ### Claim C10 -/

/-- Claim C10: when session establishment and search submission both
succeed but the parsed total-page count is not strictly positive, the run
terminates normally and writes no output artifact at all. -/
theorem C10_no_output_on_nonpositive_pages (env : RunEnv) (total : Int)
    (hE : env.establishOk = true)
    (hS : submit_search_pages env.submitStatus env.submitBody = .ok total)
    (hT : total ≤ 0) :
    run env = .noOutput ∧ writesFile (run env) = false ∧
      raisesError (run env) = false := by
  have hrun : run env = .noOutput := by
    unfold run
    rw [hE]
    simp only [Bool.true_eq_false, if_false, hS]
    rw [if_neg (by omega)]
  exact ⟨hrun, by rw [hrun]; rfl, by rw [hrun]; rfl⟩

/-- A run environment whose search reports zero pages. -/
def witEnv10 : RunEnv :=
  { establishOk := true
    submitStatus := 200
    submitBody := .obj [("totalPages", 0)]
    pageResp := fun _ _ => .status 200 emptyPage
    pingStatus := fun _ => some 200 }

/-- Claim C10, witness: the zero-page run ends with no file written. -/
theorem C10_witness :
    run witEnv10 = .noOutput ∧ writesFile (run witEnv10) = false ∧
      raisesError (run witEnv10) = false :=
  C10_no_output_on_nonpositive_pages witEnv10 0 rfl rfl (by omega)

/-! ### Claim C2 -/

/-- Forget the keep-alive trace of a run state. -/
def ScrapeState.erasePings (s : ScrapeState) : ScrapeState := { s with pings := [] }

/-- Forget the keep-alive trace of a loop result. -/
def ScrapeResult.erasePings : ScrapeResult → ScrapeResult
  | .done s => .done s.erasePings
  | .error p c s => .error p c s.erasePings

/-- The ping step never changes anything except the keep-alive trace. -/
theorem pingStep_erasePings (env : Env) (p : Nat) (s : ScrapeState) :
    (pingStep env p s).erasePings = s.erasePings := by
  unfold pingStep
  split <;> rfl

/-- Apart from the keep-alive trace, the whole page loop is insensitive to
the ping oracle: the code discards what `ping_session` returns. -/
theorem scrapeGo_pings_irrel (env env2 : Env)
    (hresp : env.pageResp = env2.pageResp) :
    ∀ (pages : List Nat) (s s2 : ScrapeState),
      s.erasePings = s2.erasePings →
      (scrapeGo env pages s).erasePings = (scrapeGo env2 pages s2).erasePings := by
  intro pages
  induction pages with
  | nil =>
    intro s s2 h
    obtain ⟨d, sp, fp, pg, tr⟩ := s
    obtain ⟨d2, sp2, fp2, pg2, tr2⟩ := s2
    simp only [ScrapeState.erasePings, ScrapeState.mk.injEq, and_true] at h
    obtain ⟨h1, h2, h3, -, h4⟩ := h
    subst h1; subst h2; subst h3; subst h4
    rfl
  | cons p rest ih =>
    intro s s2 h
    obtain ⟨d, sp, fp, pg, tr⟩ := s
    obtain ⟨d2, sp2, fp2, pg2, tr2⟩ := s2
    simp only [ScrapeState.erasePings, ScrapeState.mk.injEq, and_true] at h
    obtain ⟨h1, h2, h3, -, h4⟩ := h
    subst h1; subst h2; subst h3; subst h4
    simp only [scrapeGo, hresp]
    cases hf : (fetch_page (env2.pageResp p)).1 with
    | ok body =>
      apply ih
      simp [pingStep, ScrapeState.erasePings]
      split <;> simp
    | failed =>
      apply ih
      simp [pingStep, ScrapeState.erasePings]
      split <;> simp
    | raised c =>
      simp only [ScrapeResult.erasePings]
      rw [pingStep_erasePings, pingStep_erasePings]
      simp [ScrapeState.erasePings]

/-- Claim C2 (amended): on every page number divisible by 5 the loop does
trigger the keep-alive ping before fetching the page (its result lands in
the trace), but the result is discarded: the loop's behaviour — documents,
successful and failed pages, and whether and where it aborts — is
identical under any ping oracle, so an auth-rejection reported by the
ping never aborts the run. -/
theorem C2_ping_ignored (env env2 : Env) (pages : List Nat) (s : ScrapeState)
    (p : Nat) (hresp : env.pageResp = env2.pageResp) (hp : p % 5 = 0) :
    (pingStep env p s).pings = s.pings ++ [(p, ping_session env p)] ∧
    (scrapeGo env pages s).erasePings = (scrapeGo env2 pages s).erasePings :=
  ⟨by simp [pingStep, hp], scrapeGo_pings_irrel env env2 hresp pages s s rfl⟩

/-- A backend whose keep-alive ping reports 401 while every page fetch
succeeds with an empty result container. -/
def cexEnv2 : Env :=
  { pageResp := fun _ _ => .status 200 emptyPage, pingStatus := fun _ => some 401 }

/-- Claim C2, counterexample: in a five-page run the page-5 ping reports
auth-rejection (it returns `false` on the 401 status), yet the run does
not abort: it completes normally with all five pages fetched
successfully. -/
theorem C2_counterexample :
    ping_session cexEnv2 5 = false ∧
    scrape_all_pages cexEnv2 5
      = .done { successfulPages := 5, pings := [(5, false)] } := ⟨rfl, rfl⟩

/-- A backend identical to `cexEnv2` except that its pings succeed. -/
def witEnv2 : Env :=
  { pageResp := fun _ _ => .status 200 emptyPage, pingStatus := fun _ => some 200 }

/-- Claim C2, witness: the amended statement at the concrete backends. -/
theorem C2_witness :
    (pingStep cexEnv2 5 initScrapeState).pings
      = initScrapeState.pings ++ [(5, ping_session cexEnv2 5)] ∧
    (scrapeGo cexEnv2 [5] initScrapeState).erasePings
      = (scrapeGo witEnv2 [5] initScrapeState).erasePings :=
  C2_ping_ignored cexEnv2 witEnv2 [5] initScrapeState 5 rfl (by decide)

/-! ### Claim C8 -/

/-- The ping step touches none of the counters. -/
theorem pingStep_counts (env : Env) (p : Nat) (s : ScrapeState) :
    (pingStep env p s).documents = s.documents ∧
    (pingStep env p s).successfulPages = s.successfulPages ∧
    (pingStep env p s).failedPages = s.failedPages := by
  unfold pingStep
  split <;> exact ⟨rfl, rfl, rfl⟩

/-- Loop invariant for the run statistics: a completed loop adds one to
one of the two counters per page, and finishes with `total_records` equal
to the number of accumulated documents. -/
theorem scrapeGo_done_counts (env : Env) (pages : List Nat) :
    ∀ (s sEnd : ScrapeState), scrapeGo env pages s = .done sEnd →
      sEnd.successfulPages + sEnd.failedPages.length
        = s.successfulPages + s.failedPages.length + pages.length ∧
      sEnd.totalRecords = sEnd.documents.length := by
  induction pages with
  | nil =>
    intro s sEnd h
    simp only [scrapeGo, ScrapeResult.done.injEq] at h
    subst h
    simp
  | cons p rest ih =>
    intro s sEnd h
    simp only [scrapeGo] at h
    obtain ⟨hd, hsp, hfp⟩ := pingStep_counts env p s
    cases hf : (fetch_page (env.pageResp p)).1 with
    | ok body =>
      rw [hf] at h
      obtain ⟨ha, hb⟩ := ih _ _ h
      refine ⟨?_, hb⟩
      simp only [ha, hsp, hfp, List.length_cons]
      omega
    | failed =>
      rw [hf] at h
      obtain ⟨ha, hb⟩ := ih _ _ h
      refine ⟨?_, hb⟩
      simp only [ha, hsp, hfp, List.length_append, List.length_cons,
        List.length_nil]
      omega
    | raised c =>
      rw [hf] at h
      cases h

/-- Claim C8: at the end of every completed scrape run the number of
successful pages plus the number of failed page numbers equals the total
page count, and the recorded `total_records` equals the length of the
accumulated documents sequence. -/
theorem C8_aggregation (env : Env) (total : Nat) (s : ScrapeState)
    (h : scrape_all_pages env total = .done s) :
    s.successfulPages + s.failedPages.length = total ∧
    s.totalRecords = s.documents.length := by
  have hc := scrapeGo_done_counts env (List.range' 1 total) initScrapeState s h
  simpa [initScrapeState] using hc

/-- The final state of a one-page run against `witEnv2`. -/
def witState8 : ScrapeState := { successfulPages := 1 }

/-- Claim C8, witness: the aggregation identity at a concrete completed
run. -/
theorem C8_witness :
    witState8.successfulPages + witState8.failedPages.length = 1 ∧
    witState8.totalRecords = witState8.documents.length :=
  C8_aggregation witEnv2 1 witState8 rfl

/-! ### Claim C9 -/

/-- The documents one page contributes to a run: the page's parses when
its fetch yields markup, nothing when the fetch fails. -/
def pageDocs (env : Env) (p : Nat) : Option (List DocumentRecord) :=
  match (fetch_page (env.pageResp p)).1 with
  | .ok body => some (parse_page body p)
  | _ => none

/-- Loop invariant for the accumulated documents: a completed loop appends
each successfully fetched page's parses in page order. -/
theorem scrapeGo_done_docs (env : Env) (pages : List Nat) :
    ∀ (s sEnd : ScrapeState), scrapeGo env pages s = .done sEnd →
      sEnd.documents = s.documents ++ (pages.filterMap (pageDocs env)).flatten := by
  induction pages with
  | nil =>
    intro s sEnd h
    simp only [scrapeGo, ScrapeResult.done.injEq] at h
    subst h
    simp
  | cons p rest ih =>
    intro s sEnd h
    simp only [scrapeGo] at h
    obtain ⟨hd, hsp, hfp⟩ := pingStep_counts env p s
    cases hf : (fetch_page (env.pageResp p)).1 with
    | ok body =>
      rw [hf] at h
      have ha := ih _ _ h
      simp only [ha, hd, List.filterMap_cons, pageDocs, hf, List.flatten_cons,
        List.append_assoc]
    | failed =>
      rw [hf] at h
      have ha := ih _ _ h
      simp only [ha, hd, List.filterMap_cons, pageDocs, hf]
    | raised c =>
      rw [hf] at h
      cases h

/-- Claim C9: in every completed run the accumulated documents are exactly
the concatenation, in increasing page order, of each successfully fetched
page's records, and within each page the records appear in the order of
the page's rows (the extractor is the row-order filter map). -/
theorem C9_ordering (env : Env) (total : Nat) (s : ScrapeState)
    (h : scrape_all_pages env total = .done s) :
    s.documents = ((List.range' 1 total).filterMap (pageDocs env)).flatten ∧
    ∀ (body : PageSoup) (n : Nat),
      parse_page body n = (pageRowsOf body).filterMap parse_document_from_row := by
  constructor
  · have := scrapeGo_done_docs env (List.range' 1 total) initScrapeState s h
    simpa [initScrapeState] using this
  · exact parse_page_eq_filterMap

/-- A page with one identifiable row. -/
def witPage9 : PageSoup := { mainContainer := some [witRow6] }

/-- A backend serving `witPage9` for every page. -/
def witEnv9 : Env :=
  { pageResp := fun _ _ => .status 200 witPage9, pingStatus := fun _ => some 200 }

/-- The final state of a two-page run against `witEnv9`. -/
def witState9 : ScrapeState :=
  { documents := [buildDoc witRow6, buildDoc witRow6]
    successfulPages := 2
    totalRecords := 2 }

/-- Claim C9, witness: the ordering identity at a concrete completed
two-page run. -/
theorem C9_witness :
    witState9.documents
      = ((List.range' 1 2).filterMap (pageDocs witEnv9)).flatten ∧
    ∀ (body : PageSoup) (n : Nat),
      parse_page body n = (pageRowsOf body).filterMap parse_document_from_row :=
  C9_ordering witEnv9 2 witState9 (by decide)

end PimaScraper
